import Mathlib

/-
Shallow embedding of the text-to-speech gateway (src/app.py).

Modelling conventions:
- Environment configuration (AZURE_SPEECH_KEY, AZURE_REGION, USE_FREE_TTS) is a
  `Config` record; `azure_speech_key = none` models an unset variable and
  Python string truthiness is modelled explicitly (empty string is falsy).
- The mutable fields of the `TextToSpeechAPI` object form `TTSState`.
- Instants (`datetime.now()`) are naturals counted in seconds, so
  `timedelta(minutes=9)` is `540`.
- Network I/O is stubbed: each operation takes the upstream response it would
  receive as an explicit argument, and reports how many token-issuance calls
  it performed.
- Python exceptions carry only a message string, so errors are
  `Except String`.
-/

structure Config where
  azure_speech_key : Option String
  azure_region : String
  use_free_tts : Bool
deriving DecidableEq, Repr

/-- Python truthiness of `AZURE_SPEECH_KEY`: set and non-empty. -/
def azureKeyTruthy (cfg : Config) : Bool :=
  match cfg.azure_speech_key with
  | none => false
  | some k => k != ""

/-- The provider-selection condition `USE_FREE_TTS or not AZURE_SPEECH_KEY`
that appears in `text_to_speech`, `text_to_speech_post`,
`get_available_voices` and `health_check`. -/
def useFallback (cfg : Config) : Bool :=
  cfg.use_free_tts || !(azureKeyTruthy cfg)

inductive Provider where
  | primary
  | fallback
deriving DecidableEq, Repr

/-- The provider the handlers route a request to. -/
def selectedProvider (cfg : Config) : Provider :=
  if useFallback cfg then .fallback else .primary

/-- Mutable state of the `TextToSpeechAPI` instance. -/
structure TTSState where
  azure_token : Option String
  token_expiry : Option Nat
deriving DecidableEq, Repr

/-- Stubbed `requests` response with a textual body (token endpoint). -/
structure HttpResponse where
  status_code : Nat
  text : String
deriving DecidableEq, Repr

/-- Stubbed `requests` response with a binary body (synthesis endpoints). -/
structure BytesResponse where
  status_code : Nat
  content : List Nat
deriving DecidableEq, Repr

deriving instance DecidableEq for Except

structure TokenResult where
  result : Except String String
  state : TTSState
  issuanceCalls : Nat
deriving DecidableEq, Repr

/-- Python truthiness of `self.azure_token` (a string): set and non-empty. -/
def tokenTruthy : Option String → Bool
  | none => false
  | some v => v != ""

/-- The fast-path condition
`self.azure_token and self.token_expiry and datetime.now() < self.token_expiry`
(a `datetime` object is always truthy, so the middle conjunct is `isSome`). -/
def cacheFresh (s : TTSState) (now : Nat) : Bool :=
  tokenTruthy s.azure_token &&
    (match s.token_expiry with
     | none => false
     | some e => decide (now < e))

/-- `TextToSpeechAPI.get_azure_token`. `resp` is the response the
`requests.post` to the issueToken endpoint would return. -/
def get_azure_token (cfg : Config) (s : TTSState) (now : Nat)
    (resp : HttpResponse) : TokenResult :=
  if azureKeyTruthy cfg = false then
    ⟨.error "Azure Speech Key not configured", s, 0⟩
  else if cacheFresh s now then
    ⟨.ok (s.azure_token.getD ""), s, 0⟩
  else if resp.status_code = 200 then
    ⟨.ok resp.text, ⟨some resp.text, some (now + 540)⟩, 1⟩
  else
    ⟨.error ("Failed to get Azure token: " ++ toString resp.status_code), s, 1⟩

/-- `TextToSpeechAPI.synthesize_speech_azure`: everything inside the `try`
block (token acquisition included) that raises is re-raised wrapped as
`Azure synthesis failed: ...`. -/
def synthesize_speech_azure (cfg : Config) (s : TTSState) (now : Nat)
    (tokenResp : HttpResponse) (synthResp : BytesResponse)
    (text : String) (voice : String := "en-US-JennyNeural") :
    Except String (List Nat) × TTSState :=
  let _ := text
  let _ := voice
  let tok := get_azure_token cfg s now tokenResp
  match tok.result with
  | .error e => (.error ("Azure synthesis failed: " ++ e), tok.state)
  | .ok _ =>
    if synthResp.status_code = 200 then
      (.ok synthResp.content, tok.state)
    else
      (.error ("Azure synthesis failed: Azure API error: " ++
        toString synthResp.status_code), tok.state)

/-- `TextToSpeechAPI.synthesize_speech_free`. -/
def synthesize_speech_free (text : String) (resp : BytesResponse) :
    Except String (List Nat) :=
  let _ := text
  if resp.status_code = 200 then
    .ok resp.content
  else
    .error ("Free TTS failed: Free TTS error: " ++ toString resp.status_code)

/-- The `if USE_FREE_TTS or not AZURE_SPEECH_KEY` dispatch shared by both
`/speech` handlers. -/
def routedSynthesis (cfg : Config) (s : TTSState) (now : Nat)
    (tokenResp : HttpResponse) (azureResp freeResp : BytesResponse)
    (text voice : String) : Except String (List Nat) × TTSState :=
  if useFallback cfg then
    (synthesize_speech_free text freeResp, s)
  else
    synthesize_speech_azure cfg s now tokenResp azureResp text voice

inductive GetSpeechResult where
  | audio (bytes : List Nat)
  | failure (status : Nat) (error : String)
deriving DecidableEq, Repr

/-- `GET /speech` handler `text_to_speech`. `queryText` is
`request.args.get('text', '')` before defaulting (`none` = absent). -/
def text_to_speech (cfg : Config) (s : TTSState) (now : Nat)
    (tokenResp : HttpResponse) (azureResp freeResp : BytesResponse)
    (queryText : Option String) : GetSpeechResult × TTSState :=
  let text := queryText.getD ""
  if text = "" then
    (.failure 400 "No text provided. Use ?text=Your+message", s)
  else if text.length > 1000 then
    (.failure 400 "Text too long. Maximum 1000 characters.", s)
  else
    match routedSynthesis cfg s now tokenResp azureResp freeResp text
        "en-US-JennyNeural" with
    | (.ok b, s') => (.audio b, s')
    | (.error e, s') => (.failure 500 e, s')

/-- Base64 alphabet used by Python `base64.b64encode` (RFC 4648). -/
def b64Alphabet : List Char :=
  "ABCDEFGHIJKLMNOPQRSTUVWXYZabcdefghijklmnopqrstuvwxyz0123456789+/".toList

def b64Char (n : Nat) : Char := b64Alphabet.getD n 'A'

def b64Index (c : Char) : Nat := b64Alphabet.indexOf c

/-- Standard base64 encoding of a byte list, as `base64.b64encode` produces
(after `.decode('utf-8')` the bytes become the same characters). -/
def b64encodeChars : List Nat → List Char
  | [] => []
  | [b1] =>
    [b64Char (b1 / 4), b64Char (b1 % 4 * 16), '=', '=']
  | [b1, b2] =>
    [b64Char (b1 / 4), b64Char (b1 % 4 * 16 + b2 / 16),
     b64Char (b2 % 16 * 4), '=']
  | b1 :: b2 :: b3 :: rest =>
    b64Char (b1 / 4) :: b64Char (b1 % 4 * 16 + b2 / 16) ::
    b64Char (b2 % 16 * 4 + b3 / 64) :: b64Char (b3 % 64) ::
    b64encodeChars rest

def b64encodeString (bytes : List Nat) : String :=
  String.mk (b64encodeChars bytes)

/-- Standard base64 decoding (the spec-side inverse used to check the
round-trip property of `audio_data`). -/
def b64decodeChars : List Char → List Nat
  | c1 :: c2 :: c3 :: c4 :: rest =>
    if c3 = '=' then
      [b64Index c1 * 4 + b64Index c2 / 16]
    else if c4 = '=' then
      [b64Index c1 * 4 + b64Index c2 / 16,
       b64Index c2 % 16 * 16 + b64Index c3 / 4]
    else
      (b64Index c1 * 4 + b64Index c2 / 16) ::
      (b64Index c2 % 16 * 16 + b64Index c3 / 4) ::
      (b64Index c3 % 4 * 64 + b64Index c4) ::
      b64decodeChars rest
  | _ => []

def b64decodeString (s : String) : List Nat :=
  b64decodeChars s.toList

/-- Success body of `POST /speech` (the constant `status: success` field is
folded into the constructor below). -/
structure PostSuccessBody where
  text : String
  audio_format : String
  audio_data : String
  voice : String
deriving DecidableEq, Repr

inductive PostSpeechResult where
  | success (body : PostSuccessBody)
  | failure (status : Nat) (error : String)
deriving DecidableEq, Repr

/-- Parsed JSON body of `POST /speech`; `none` fields are absent keys.
A body `data` is rejected when `not data or 'text' not in data`, which is
exactly: no body, or no `text` key (an empty dict is falsy and has no
`text` key either way). -/
structure PostData where
  text : Option String
  voice : Option String
deriving DecidableEq, Repr

/-- `POST /speech` handler `text_to_speech_post`. -/
def text_to_speech_post (cfg : Config) (s : TTSState) (now : Nat)
    (tokenResp : HttpResponse) (azureResp freeResp : BytesResponse)
    (data : Option PostData) : PostSpeechResult × TTSState :=
  match data with
  | none => (.failure 400 "No text provided in JSON body", s)
  | some d =>
    match d.text with
    | none => (.failure 400 "No text provided in JSON body", s)
    | some text =>
      let voice := d.voice.getD "en-US-JennyNeural"
      match routedSynthesis cfg s now tokenResp azureResp freeResp text
          voice with
      | (.ok b, s') =>
        (.success ⟨text, "mp3", b64encodeString b,
          if cfg.use_free_tts then "free-tts" else voice⟩, s')
      | (.error e, s') => (.failure 500 e, s')

/-- An entry of the upstream voice catalog; the code reads only the
`Locale` key of each JSON object. -/
structure VoiceInfo where
  Locale : String
  ShortName : String
deriving DecidableEq, Repr

structure CatalogResponse where
  status_code : Nat
  voices : List VoiceInfo
deriving DecidableEq, Repr

def startsWithChars : List Char → List Char → Bool
  | [], _ => true
  | _ :: _, [] => false
  | p :: ps, s :: ss => (p == s) && startsWithChars ps ss

/-- Python `str.startswith(pat)`: the first characters of `s` are `pat`. -/
def strStartsWith (s pat : String) : Bool :=
  startsWithChars pat.toList s.toList

inductive VoicesResult where
  | freeMessage (message default_voice : String)
  | voiceList (voices : List VoiceInfo)
  | failure (status : Nat) (error : String)
deriving DecidableEq, Repr

/-- `GET /voices` handler `get_available_voices`. The last component counts
upstream calls performed (token issuance plus the catalog fetch). -/
def get_available_voices (cfg : Config) (s : TTSState) (now : Nat)
    (tokenResp : HttpResponse) (catResp : CatalogResponse) :
    VoicesResult × TTSState × Nat :=
  if useFallback cfg then
    (.freeMessage "Using free TTS service - voice selection not available"
      "free-tts", s, 0)
  else
    let tok := get_azure_token cfg s now tokenResp
    match tok.result with
    | .error e => (.failure 500 e, tok.state, tok.issuanceCalls)
    | .ok _ =>
      if catResp.status_code = 200 then
        (.voiceList
          ((catResp.voices.filter (fun v => strStartsWith v.Locale "en-")).take
            10), tok.state, tok.issuanceCalls + 1)
      else
        (.failure 500 "Failed to fetch voices", tok.state,
          tok.issuanceCalls + 1)

structure HealthResponse where
  status : String
  service : String
  using_free_tts : Bool
deriving DecidableEq, Repr

/-- `GET /health` handler `health_check`. -/
def health_check (cfg : Config) : HealthResponse :=
  ⟨"healthy", "Text-to-Speech API", cfg.use_free_tts || !(azureKeyTruthy cfg)⟩

/-- States of the shared `tts_api` object reachable by any sequence of
handler or method invocations, starting from `TextToSpeechAPI.__init__`. -/
inductive Reachable : TTSState → Prop where
  | init : Reachable ⟨none, none⟩
  | token (cfg s now resp) : Reachable s →
      Reachable (get_azure_token cfg s now resp).state
  | synth (cfg s now tr sr text voice) : Reachable s →
      Reachable (synthesize_speech_azure cfg s now tr sr text voice).2
  | getSpeech (cfg s now tr ar fr qt) : Reachable s →
      Reachable (text_to_speech cfg s now tr ar fr qt).2
  | postSpeech (cfg s now tr ar fr d) : Reachable s →
      Reachable (text_to_speech_post cfg s now tr ar fr d).2
  | voices (cfg s now tr cat) : Reachable s →
      Reachable (get_available_voices cfg s now tr cat).2.1

theorem b64Index_b64Char : ∀ n < 64, b64Index (b64Char n) = n := by decide

theorem b64Char_ne_pad : ∀ n < 64, b64Char n ≠ '=' := by decide

theorem chunk3_induction (P : List Nat → Prop) (h0 : P [])
    (h1 : ∀ a, P [a]) (h2 : ∀ a b, P [a, b])
    (h3 : ∀ a b c l, P l → P (a :: b :: c :: l)) : ∀ l, P l
  | [] => h0
  | [a] => h1 a
  | [a, b] => h2 a b
  | a :: b :: c :: l => h3 a b c l (chunk3_induction P h0 h1 h2 h3 l)

/-- Base64 round-trip: decoding the encoding of any byte list gives it
back. -/
theorem b64_roundtrip : ∀ l : List Nat, (∀ b ∈ l, b < 256) →
    b64decodeChars (b64encodeChars l) = l := by
  intro l
  induction l using chunk3_induction with
  | h0 => intro _; rfl
  | h1 a =>
    intro h
    have ha : a < 256 := h a (by simp)
    have e1 : b64Index (b64Char (a / 4)) = a / 4 :=
      b64Index_b64Char _ (by omega)
    have e2 : b64Index (b64Char (a % 4 * 16)) = a % 4 * 16 :=
      b64Index_b64Char _ (by omega)
    simp [b64encodeChars, b64decodeChars, e1, e2]
    omega
  | h2 a b =>
    intro h
    have ha : a < 256 := h a (by simp)
    have hb : b < 256 := h b (by simp)
    have ne3 : b64Char (b % 16 * 4) ≠ '=' := b64Char_ne_pad _ (by omega)
    have e1 : b64Index (b64Char (a / 4)) = a / 4 :=
      b64Index_b64Char _ (by omega)
    have e2 : b64Index (b64Char (a % 4 * 16 + b / 16)) =
        a % 4 * 16 + b / 16 := b64Index_b64Char _ (by omega)
    have e3 : b64Index (b64Char (b % 16 * 4)) = b % 16 * 4 :=
      b64Index_b64Char _ (by omega)
    simp [b64encodeChars, b64decodeChars, ne3, e1, e2, e3]
    constructor <;> omega
  | h3 a b c l ih =>
    intro h
    have ha : a < 256 := h a (by simp)
    have hb : b < 256 := h b (by simp)
    have hc : c < 256 := h c (by simp)
    have ne3 : b64Char (b % 16 * 4 + c / 64) ≠ '=' :=
      b64Char_ne_pad _ (by omega)
    have ne4 : b64Char (c % 64) ≠ '=' := b64Char_ne_pad _ (by omega)
    have e1 : b64Index (b64Char (a / 4)) = a / 4 :=
      b64Index_b64Char _ (by omega)
    have e2 : b64Index (b64Char (a % 4 * 16 + b / 16)) =
        a % 4 * 16 + b / 16 := b64Index_b64Char _ (by omega)
    have e3 : b64Index (b64Char (b % 16 * 4 + c / 64)) =
        b % 16 * 4 + c / 64 := b64Index_b64Char _ (by omega)
    have e4 : b64Index (b64Char (c % 64)) = c % 64 :=
      b64Index_b64Char _ (by omega)
    have ihl : b64decodeChars (b64encodeChars l) = l :=
      ih (fun x hx => h x (by simp [hx]))
    simp [b64encodeChars, b64decodeChars, ne3, ne4, e1, e2, e3, e4, ihl]
    refine ⟨by omega, by omega, by omega⟩

/-- Whatever the configuration, if the token endpoint, the Azure synthesis
endpoint and the free endpoint all answer 200 (the two synthesis stubs with
the same body), the routed synthesis succeeds with that body. -/
theorem routedSynthesis_ok (cfg : Config) (s : TTSState) (now : Nat)
    (tok : String) (bytes : List Nat) (text voice : String) :
    (routedSynthesis cfg s now ⟨200, tok⟩ ⟨200, bytes⟩ ⟨200, bytes⟩
      text voice).1 = .ok bytes := by
  unfold routedSynthesis
  rcases hfb : useFallback cfg
  · have hkey : azureKeyTruthy cfg = true := by
      unfold useFallback at hfb
      rcases hk : azureKeyTruthy cfg
      · simp [hk] at hfb
      · rfl
    rcases hcf : cacheFresh s now <;>
      simp [hfb, synthesize_speech_azure, get_azure_token, hkey, hcf]
  · simp [hfb, synthesize_speech_free]

/-- C7: the `audio_data` field of a successful `POST /speech` response,
base64-decoded, is exactly the byte sequence the selected adapter
returned. -/
theorem post_audio_base64_roundtrip (cfg : Config) (s : TTSState)
    (now : Nat) (tok : String) (bytes : List Nat) (text voice : String)
    (h : ∀ b ∈ bytes, b < 256) :
    ∃ body : PostSuccessBody,
      (text_to_speech_post cfg s now ⟨200, tok⟩ ⟨200, bytes⟩ ⟨200, bytes⟩
        (some ⟨some text, some voice⟩)).1 = .success body ∧
      b64decodeString body.audio_data = bytes := by
  have hok := routedSynthesis_ok cfg s now tok bytes text voice
  rcases hr : routedSynthesis cfg s now ⟨200, tok⟩ ⟨200, bytes⟩
      ⟨200, bytes⟩ text voice with ⟨r, s'⟩
  rw [hr] at hok
  simp only at hok
  subst hok
  refine ⟨⟨text, "mp3", b64encodeString bytes,
    if cfg.use_free_tts then "free-tts" else voice⟩, ?_, ?_⟩
  · simp [text_to_speech_post, hr]
  · simpa [b64decodeString, b64encodeString] using b64_roundtrip bytes h

/-- Witness for C7: the concrete RIFF header bytes survive the
encode-decode round trip through the POST handler. -/
theorem post_audio_base64_roundtrip_witness :
    ∃ body : PostSuccessBody,
      (text_to_speech_post ⟨none, "eastus", true⟩ ⟨none, none⟩ 0 ⟨200, "t"⟩
        ⟨200, [82, 73, 70, 70]⟩ ⟨200, [82, 73, 70, 70]⟩
        (some ⟨some "hello", some "en-US-JennyNeural"⟩)).1 =
        .success body ∧
      b64decodeString body.audio_data = [82, 73, 70, 70] :=
  post_audio_base64_roundtrip ⟨none, "eastus", true⟩ ⟨none, none⟩ 0 "t"
    [82, 73, 70, 70] "hello" "en-US-JennyNeural" (by decide)

/-- C2: provider selection is a pure function of the two configuration
inputs: Primary is selected iff the credentials are configured (the key is
set and non-empty) and the free-tier override flag is not enabled; every
other combination selects Fallback. -/
theorem provider_selection_iff (cfg : Config) :
    selectedProvider cfg = Provider.primary ↔
      azureKeyTruthy cfg = true ∧ cfg.use_free_tts = false := by
  unfold selectedProvider useFallback
  rcases h : azureKeyTruthy cfg <;> rcases hf : cfg.use_free_tts <;> simp [h, hf]

/-- C9: whenever no credentials are configured, `health_check` reports
`using_free_tts = true`, whatever the value of the override flag. -/
theorem health_free_tts_flag (cfg : Config)
    (hkey : azureKeyTruthy cfg = false) :
    (health_check cfg).using_free_tts = true := by
  simp [health_check, hkey]

/-- Witness for C9: concrete unconfigured setups with the flag off and on. -/
theorem health_free_tts_flag_witness :
    (health_check ⟨none, "eastus", false⟩).using_free_tts = true ∧
      (health_check ⟨none, "eastus", true⟩).using_free_tts = true :=
  ⟨health_free_tts_flag ⟨none, "eastus", false⟩ (by decide),
   health_free_tts_flag ⟨none, "eastus", true⟩ (by decide)⟩

/-- C4: on a renewal attempt (credentials configured, cache not fresh), a
200 response stores its body as the token with expiry `now + 9` minutes
(540 seconds) and returns it; any other status produces the auth error
carrying the upstream status and leaves the cached state unchanged. -/
theorem token_renewal_contract (cfg : Config) (s : TTSState) (now : Nat)
    (resp : HttpResponse) (hkey : azureKeyTruthy cfg = true)
    (hmiss : cacheFresh s now = false) :
    (resp.status_code = 200 →
      get_azure_token cfg s now resp =
        ⟨.ok resp.text, ⟨some resp.text, some (now + 540)⟩, 1⟩) ∧
    (resp.status_code ≠ 200 →
      get_azure_token cfg s now resp =
        ⟨.error ("Failed to get Azure token: " ++ toString resp.status_code),
          s, 1⟩) := by
  constructor <;> intro hst <;> simp [get_azure_token, hkey, hmiss, hst]

/-- Witness for C4: a renewal at time 7 with a 200 response caches the body
and expiry 547; one with a 401 response fails and leaves the empty state. -/
theorem token_renewal_contract_witness :
    (get_azure_token ⟨some "k", "eastus", false⟩ ⟨none, none⟩ 7 ⟨200, "tok"⟩ =
      ⟨.ok "tok", ⟨some "tok", some 547⟩, 1⟩) ∧
    (get_azure_token ⟨some "k", "eastus", false⟩ ⟨none, none⟩ 7 ⟨401, "x"⟩ =
      ⟨.error "Failed to get Azure token: 401", ⟨none, none⟩, 1⟩) :=
  ⟨(token_renewal_contract ⟨some "k", "eastus", false⟩ ⟨none, none⟩ 7
      ⟨200, "tok"⟩ (by decide) (by decide)).1 (by decide),
   by
    have h := (token_renewal_contract ⟨some "k", "eastus", false⟩ ⟨none, none⟩
      7 ⟨401, "x"⟩ (by decide) (by decide)).2 (by decide)
    simpa using h⟩

/-- C1 counterexample: starting from the initial state, a successful
issuance whose body is the empty string leaves a cached token (`some ""`)
with expiry 541; a later call at time 5 < 541 — a state where a cached
token exists and now is strictly before expiry — still performs an
issuance call and returns the fresh body instead of the cached value. -/
theorem token_cache_fastpath_empty_token_cex :
    ((get_azure_token ⟨some "k", "eastus", false⟩ ⟨none, none⟩ 1
        ⟨200, ""⟩).state = ⟨some "", some 541⟩) ∧
    (5 < 541) ∧
    ((get_azure_token ⟨some "k", "eastus", false⟩ ⟨some "", some 541⟩ 5
        ⟨200, "fresh"⟩).issuanceCalls = 1) ∧
    ((get_azure_token ⟨some "k", "eastus", false⟩ ⟨some "", some 541⟩ 5
        ⟨200, "fresh"⟩).result = .ok "fresh") := by
  refine ⟨by decide, by decide, by decide, by decide⟩

/-- C1 amended: with credentials configured, if a cached NON-EMPTY token
exists and now is strictly before its expiry, the cached value is returned
and no issuance call is performed; if the token is absent or empty, or the
current time is at or past the expiry, exactly one issuance call is
performed. -/
theorem token_cache_fastpath_amended (cfg : Config) (s : TTSState)
    (now : Nat) (resp : HttpResponse) (hkey : azureKeyTruthy cfg = true) :
    (∀ v e, s.azure_token = some v → v ≠ "" → s.token_expiry = some e →
      now < e → get_azure_token cfg s now resp = ⟨.ok v, s, 0⟩) ∧
    ((s.azure_token = none ∨ s.azure_token = some "" ∨
        (∃ e, s.token_expiry = some e ∧ e ≤ now)) →
      (get_azure_token cfg s now resp).issuanceCalls = 1) := by
  constructor
  · intro v e hv hne he hlt
    have hfresh : cacheFresh s now = true := by
      simp [cacheFresh, tokenTruthy, hv, he, hlt, hne]
    simp [get_azure_token, hkey, hfresh, hv]
  · intro hmiss
    have hfresh : cacheFresh s now = false := by
      rcases hmiss with h | h | ⟨e, he, hle⟩
      · simp [cacheFresh, tokenTruthy, h]
      · simp [cacheFresh, tokenTruthy, h]
      · simp [cacheFresh, he, Nat.not_lt.mpr hle]
    rcases hst : decide (resp.status_code = 200) with hb | hb
    · simp at hst
      simp [get_azure_token, hkey, hfresh, hst]
    · simp at hst
      simp [get_azure_token, hkey, hfresh, hst]

/-- Witness for C1 amended: a fresh non-empty cached token is served with
no issuance call; from the empty initial state one issuance call happens. -/
theorem token_cache_fastpath_amended_witness :
    (get_azure_token ⟨some "k", "eastus", false⟩ ⟨some "tok", some 100⟩ 50
        ⟨200, "other"⟩ = ⟨.ok "tok", ⟨some "tok", some 100⟩, 0⟩) ∧
    ((get_azure_token ⟨some "k", "eastus", false⟩ ⟨none, none⟩ 50
        ⟨200, "other"⟩).issuanceCalls = 1) :=
  ⟨(token_cache_fastpath_amended ⟨some "k", "eastus", false⟩
      ⟨some "tok", some 100⟩ 50 ⟨200, "other"⟩ (by decide)).1 "tok" 100
      rfl (by decide) rfl (by decide),
   (token_cache_fastpath_amended ⟨some "k", "eastus", false⟩ ⟨none, none⟩ 50
      ⟨200, "other"⟩ (by decide)).2 (Or.inl rfl)⟩

set_option maxRecDepth 10000 in
/-- C3 counterexample: on the structured `POST /speech` surface, an empty
`text` value and a 1001-character `text` value both pass validation and are
forwarded (the handler only checks that a `text` key is present), instead
of failing with status 400. -/
theorem post_validation_empty_text_cex :
    ((text_to_speech_post ⟨none, "eastus", true⟩ ⟨none, none⟩ 0 ⟨200, "t"⟩
        ⟨200, [1]⟩ ⟨200, [1]⟩ (some ⟨some "", none⟩)).1 =
      .success ⟨"", "mp3", "AQ==", "free-tts"⟩) ∧
    ((text_to_speech_post ⟨none, "eastus", true⟩ ⟨none, none⟩ 0 ⟨200, "t"⟩
        ⟨200, [1]⟩ ⟨200, [1]⟩
        (some ⟨some (String.mk (List.replicate 1001 'a')), none⟩)).1 =
      .success ⟨String.mk (List.replicate 1001 'a'), "mp3", "AQ==",
        "free-tts"⟩) := by
  refine ⟨by decide, by decide⟩

/-- C3 amended: on the GET surface, absent or empty text fails with 400,
text longer than 1000 characters fails with 400, and any other text is
forwarded to the selected adapter; on the POST surface only the absence of
the `text` field fails with 400 — any present text (empty or of length
1001 included) is forwarded to the selected adapter. -/
theorem input_validation_amended (cfg : Config) (s : TTSState) (now : Nat)
    (tr : HttpResponse) (ar fr : BytesResponse) :
    ((text_to_speech cfg s now tr ar fr none).1 =
      .failure 400 "No text provided. Use ?text=Your+message") ∧
    ((text_to_speech cfg s now tr ar fr (some "")).1 =
      .failure 400 "No text provided. Use ?text=Your+message") ∧
    (∀ t : String, t.length > 1000 →
      (text_to_speech cfg s now tr ar fr (some t)).1 =
        .failure 400 "Text too long. Maximum 1000 characters.") ∧
    (∀ t : String, t ≠ "" → t.length ≤ 1000 →
      (text_to_speech cfg s now tr ar fr (some t)).1 =
        match (routedSynthesis cfg s now tr ar fr t "en-US-JennyNeural").1
            with
        | .ok b => .audio b
        | .error e => .failure 500 e) ∧
    ((text_to_speech_post cfg s now tr ar fr none).1 =
      .failure 400 "No text provided in JSON body") ∧
    (∀ v, (text_to_speech_post cfg s now tr ar fr (some ⟨none, v⟩)).1 =
      .failure 400 "No text provided in JSON body") ∧
    (∀ t v, (text_to_speech_post cfg s now tr ar fr (some ⟨some t, v⟩)).1 =
      match (routedSynthesis cfg s now tr ar fr t
          (v.getD "en-US-JennyNeural")).1 with
      | .ok b => .success ⟨t, "mp3", b64encodeString b,
          if cfg.use_free_tts then "free-tts"
          else v.getD "en-US-JennyNeural"⟩
      | .error e => .failure 500 e) := by
  refine ⟨by simp [text_to_speech], by simp [text_to_speech], ?_, ?_,
    by simp [text_to_speech_post], by intro v; simp [text_to_speech_post],
    ?_⟩
  · intro t hlen
    have hne : t ≠ "" := by
      intro h
      subst h
      simp at hlen
    simp [text_to_speech, hne, hlen]
  · intro t hne hlen
    have hlen' : ¬(t.length > 1000) := by omega
    rcases hr : routedSynthesis cfg s now tr ar fr t "en-US-JennyNeural"
      with ⟨r, s'⟩
    rcases r <;> simp [text_to_speech, hne, hlen', hr]
  · intro t v
    rcases hr : routedSynthesis cfg s now tr ar fr t
      (v.getD "en-US-JennyNeural") with ⟨r, s'⟩
    rcases r <;> simp [text_to_speech_post, hr]

set_option maxRecDepth 10000 in
/-- Witness for C3 amended: all branches at concrete inputs (free-tier
configuration, stub adapters answering 200 with body `[1]`). -/
theorem input_validation_amended_witness :
    ((text_to_speech ⟨none, "eastus", true⟩ ⟨none, none⟩ 0 ⟨200, "t"⟩
        ⟨200, [1]⟩ ⟨200, [1]⟩ none).1 =
      .failure 400 "No text provided. Use ?text=Your+message") ∧
    ((text_to_speech ⟨none, "eastus", true⟩ ⟨none, none⟩ 0 ⟨200, "t"⟩
        ⟨200, [1]⟩ ⟨200, [1]⟩
        (some (String.mk (List.replicate 1001 'a')))).1 =
      .failure 400 "Text too long. Maximum 1000 characters.") ∧
    ((text_to_speech ⟨none, "eastus", true⟩ ⟨none, none⟩ 0 ⟨200, "t"⟩
        ⟨200, [1]⟩ ⟨200, [1]⟩
        (some (String.mk (List.replicate 1000 'a')))).1 = .audio [1]) ∧
    ((text_to_speech_post ⟨none, "eastus", true⟩ ⟨none, none⟩ 0 ⟨200, "t"⟩
        ⟨200, [1]⟩ ⟨200, [1]⟩ none).1 =
      .failure 400 "No text provided in JSON body") ∧
    ((text_to_speech_post ⟨none, "eastus", true⟩ ⟨none, none⟩ 0 ⟨200, "t"⟩
        ⟨200, [1]⟩ ⟨200, [1]⟩ (some ⟨none, some "v"⟩)).1 =
      .failure 400 "No text provided in JSON body") ∧
    ((text_to_speech_post ⟨none, "eastus", true⟩ ⟨none, none⟩ 0 ⟨200, "t"⟩
        ⟨200, [1]⟩ ⟨200, [1]⟩ (some ⟨some "hi", none⟩)).1 =
      .success ⟨"hi", "mp3", "AQ==", "free-tts"⟩) := by
  have h := input_validation_amended ⟨none, "eastus", true⟩ ⟨none, none⟩ 0
    ⟨200, "t"⟩ ⟨200, [1]⟩ ⟨200, [1]⟩
  refine ⟨h.1, h.2.2.1 _ (by decide), ?_, h.2.2.2.2.1,
    h.2.2.2.2.2.1 (some "v"), (h.2.2.2.2.2.2 "hi" none).trans (by decide)⟩
  exact (h.2.2.2.1 (String.mk (List.replicate 1000 'a')) (by decide)
    (by decide)).trans (by decide)

/-- C5 counterexample: with no credentials and the free-tier flag off, the
Fallback provider handles the POST request, yet the response reports the
default Azure voice name instead of `free-tts`. -/
theorem fallback_voice_label_cex :
    (useFallback ⟨none, "eastus", false⟩ = true) ∧
    ((text_to_speech_post ⟨none, "eastus", false⟩ ⟨none, none⟩ 0 ⟨200, "t"⟩
        ⟨200, [1]⟩ ⟨200, [1]⟩ (some ⟨some "hi", none⟩)).1 =
      .success ⟨"hi", "mp3", "AQ==", "en-US-JennyNeural"⟩) ∧
    ("en-US-JennyNeural" ≠ "free-tts") := by
  refine ⟨by decide, by decide, by decide⟩

/-- C5 amended: the `voice` field of a successful `POST /speech` response
is `free-tts` exactly when the free-tier override flag is enabled; when
Fallback is selected only because credentials are absent (flag off), the
requested or default voice is echoed back instead. -/
theorem post_voice_label_amended (cfg : Config) (s : TTSState) (now : Nat)
    (tok : String) (bytes : List Nat) (text voice : String) :
    (text_to_speech_post cfg s now ⟨200, tok⟩ ⟨200, bytes⟩ ⟨200, bytes⟩
      (some ⟨some text, some voice⟩)).1 =
    .success ⟨text, "mp3", b64encodeString bytes,
      if cfg.use_free_tts then "free-tts" else voice⟩ := by
  have hok := routedSynthesis_ok cfg s now tok bytes text voice
  rcases hr : routedSynthesis cfg s now ⟨200, tok⟩ ⟨200, bytes⟩
      ⟨200, bytes⟩ text voice with ⟨r, s'⟩
  rw [hr] at hok
  simp only at hok
  subst hok
  simp [text_to_speech_post, hr]

/-- C8: when Primary is selected and both the token and the catalog fetch
succeed, `/voices` returns the first 10 catalog entries whose `Locale`
starts with `en-`, in catalog order; when Fallback is selected it returns
the static free-tier descriptor without performing any upstream call. -/
theorem voices_listing_contract (cfg : Config) (s : TTSState) (now : Nat)
    (tokenResp : HttpResponse) (cat : CatalogResponse) :
    (∀ t, useFallback cfg = false →
      (get_azure_token cfg s now tokenResp).result = .ok t →
      cat.status_code = 200 →
      (get_available_voices cfg s now tokenResp cat).1 =
        .voiceList ((cat.voices.filter
          (fun v => strStartsWith v.Locale "en-")).take 10)) ∧
    (useFallback cfg = true →
      (get_available_voices cfg s now tokenResp cat).1 =
        .freeMessage "Using free TTS service - voice selection not available"
          "free-tts" ∧
      (get_available_voices cfg s now tokenResp cat).2.2 = 0) := by
  constructor
  · intro t hfb htok hcat
    simp [get_available_voices, hfb, htok, hcat]
  · intro hfb
    simp [get_available_voices, hfb]

/-- Witness for C8: a 15-entry catalog with 12 `en-` locales yields exactly
the first 10 of them in order; the free-tier configuration yields the
static descriptor with zero upstream calls. -/
theorem voices_listing_contract_witness :
    ((get_available_voices ⟨some "k", "eastus", false⟩ ⟨none, none⟩ 0
        ⟨200, "tok"⟩
        ⟨200, [⟨"en-US", "A"⟩, ⟨"en-US", "B"⟩, ⟨"fr-FR", "C"⟩,
          ⟨"en-GB", "D"⟩, ⟨"en-GB", "E"⟩, ⟨"en-AU", "F"⟩, ⟨"de-DE", "G"⟩,
          ⟨"en-IN", "H"⟩, ⟨"en-IE", "I"⟩, ⟨"en-CA", "J"⟩, ⟨"en-NZ", "K"⟩,
          ⟨"ja-JP", "L"⟩, ⟨"en-ZA", "M"⟩, ⟨"en-SG", "N"⟩,
          ⟨"en-PH", "O"⟩]⟩).1 =
      .voiceList [⟨"en-US", "A"⟩, ⟨"en-US", "B"⟩, ⟨"en-GB", "D"⟩,
        ⟨"en-GB", "E"⟩, ⟨"en-AU", "F"⟩, ⟨"en-IN", "H"⟩, ⟨"en-IE", "I"⟩,
        ⟨"en-CA", "J"⟩, ⟨"en-NZ", "K"⟩, ⟨"en-ZA", "M"⟩]) ∧
    ((get_available_voices ⟨some "k", "eastus", true⟩ ⟨none, none⟩ 0
        ⟨200, "tok"⟩ ⟨200, []⟩).1 =
      .freeMessage "Using free TTS service - voice selection not available"
        "free-tts") ∧
    ((get_available_voices ⟨some "k", "eastus", true⟩ ⟨none, none⟩ 0
        ⟨200, "tok"⟩ ⟨200, []⟩).2.2 = 0) := by
  have h := voices_listing_contract ⟨some "k", "eastus", false⟩ ⟨none, none⟩
    0 ⟨200, "tok"⟩
    ⟨200, [⟨"en-US", "A"⟩, ⟨"en-US", "B"⟩, ⟨"fr-FR", "C"⟩, ⟨"en-GB", "D"⟩,
      ⟨"en-GB", "E"⟩, ⟨"en-AU", "F"⟩, ⟨"de-DE", "G"⟩, ⟨"en-IN", "H"⟩,
      ⟨"en-IE", "I"⟩, ⟨"en-CA", "J"⟩, ⟨"en-NZ", "K"⟩, ⟨"ja-JP", "L"⟩,
      ⟨"en-ZA", "M"⟩, ⟨"en-SG", "N"⟩, ⟨"en-PH", "O"⟩]⟩
  have h2 := voices_listing_contract ⟨some "k", "eastus", true⟩
    ⟨none, none⟩ 0 ⟨200, "tok"⟩ ⟨200, []⟩
  refine ⟨(h.1 "tok" (by decide) (by decide) (by decide)).trans (by decide),
    (h2.2 (by decide)).1, (h2.2 (by decide)).2⟩

/-- C6 counterexample: with a configured key, an empty cache and a 401 from
the token endpoint, `get_azure_token` fails with
`Failed to get Azure token: 401`, but `synthesize_speech_azure` surfaces
`Azure synthesis failed: Failed to get Azure token: 401` — the token error
is not propagated as-is. -/
theorem azure_error_wrapping_cex :
    ((get_azure_token ⟨some "k", "eastus", false⟩ ⟨none, none⟩ 3
        ⟨401, "x"⟩).result = .error "Failed to get Azure token: 401") ∧
    ((synthesize_speech_azure ⟨some "k", "eastus", false⟩ ⟨none, none⟩ 3
        ⟨401, "x"⟩ ⟨200, [1]⟩ "hi").1 =
      .error "Azure synthesis failed: Failed to get Azure token: 401") ∧
    ("Azure synthesis failed: Failed to get Azure token: 401" ≠
      "Failed to get Azure token: 401") := by
  refine ⟨by decide, by decide, by decide⟩

/-- C6 amended: whenever token acquisition fails with message `e`, the
Primary adapter fails with the same message wrapped under the prefix
`Azure synthesis failed: ` (the original message is preserved as a suffix,
not propagated unmodified). -/
theorem azure_error_propagation_amended (cfg : Config) (s : TTSState)
    (now : Nat) (tokenResp : HttpResponse) (synthResp : BytesResponse)
    (text voice : String) (e : String)
    (herr : (get_azure_token cfg s now tokenResp).result = .error e) :
    (synthesize_speech_azure cfg s now tokenResp synthResp text voice).1 =
      .error ("Azure synthesis failed: " ++ e) := by
  simp [synthesize_speech_azure, herr]

/-- Witness for C6 amended: the missing-key configuration error comes back
wrapped. -/
theorem azure_error_propagation_amended_witness :
    (synthesize_speech_azure ⟨none, "eastus", false⟩ ⟨none, none⟩ 0
        ⟨200, "t"⟩ ⟨200, [1]⟩ "hi" "v").1 =
      .error "Azure synthesis failed: Azure Speech Key not configured" :=
  azure_error_propagation_amended ⟨none, "eastus", false⟩ ⟨none, none⟩ 0
    ⟨200, "t"⟩ ⟨200, [1]⟩ "hi" "v" "Azure Speech Key not configured"
    (by decide)

/-- The implicit token-state invariant: the two cached fields are set and
cleared together. -/
def tokenInv (s : TTSState) : Prop :=
  s.azure_token = none ↔ s.token_expiry = none

theorem tokenInv_get_azure_token (cfg : Config) (s : TTSState) (now : Nat)
    (resp : HttpResponse) (h : tokenInv s) :
    tokenInv (get_azure_token cfg s now resp).state := by
  by_cases hk : azureKeyTruthy cfg = false
  · simpa [get_azure_token, hk] using h
  · by_cases hc : cacheFresh s now
    · simpa [get_azure_token, hk, hc] using h
    · by_cases hs : resp.status_code = 200
      · simp [get_azure_token, hk, hc, hs, tokenInv]
      · simpa [get_azure_token, hk, hc, hs] using h

theorem synthesize_state_eq (cfg : Config) (s : TTSState) (now : Nat)
    (tr : HttpResponse) (sr : BytesResponse) (text voice : String) :
    (synthesize_speech_azure cfg s now tr sr text voice).2 =
      (get_azure_token cfg s now tr).state := by
  unfold synthesize_speech_azure
  rcases h : (get_azure_token cfg s now tr).result with e | t
  · simp [h]
  · by_cases hs : sr.status_code = 200 <;> simp [h, hs]

theorem tokenInv_routedSynthesis (cfg : Config) (s : TTSState) (now : Nat)
    (tr : HttpResponse) (ar fr : BytesResponse) (text voice : String)
    (h : tokenInv s) :
    tokenInv (routedSynthesis cfg s now tr ar fr text voice).2 := by
  unfold routedSynthesis
  by_cases hfb : useFallback cfg
  · simpa [hfb] using h
  · simpa [hfb, synthesize_state_eq] using
      tokenInv_get_azure_token cfg s now tr h

theorem tokenInv_text_to_speech (cfg : Config) (s : TTSState) (now : Nat)
    (tr : HttpResponse) (ar fr : BytesResponse) (qt : Option String)
    (h : tokenInv s) :
    tokenInv (text_to_speech cfg s now tr ar fr qt).2 := by
  unfold text_to_speech
  by_cases h1 : qt.getD "" = ""
  · simpa [h1] using h
  · by_cases h2 : (qt.getD "").length > 1000
    · simpa [h1, h2] using h
    · have hr' := tokenInv_routedSynthesis cfg s now tr ar fr (qt.getD "")
        "en-US-JennyNeural" h
      rcases hr : routedSynthesis cfg s now tr ar fr (qt.getD "")
        "en-US-JennyNeural" with ⟨r, s'⟩
      rw [hr] at hr'
      rcases r <;> simpa [h1, h2, hr] using hr'

theorem tokenInv_text_to_speech_post (cfg : Config) (s : TTSState)
    (now : Nat) (tr : HttpResponse) (ar fr : BytesResponse)
    (d : Option PostData) (h : tokenInv s) :
    tokenInv (text_to_speech_post cfg s now tr ar fr d).2 := by
  unfold text_to_speech_post
  rcases d with _ | ⟨dt, dv⟩
  · simpa using h
  · rcases dt with _ | t
    · simpa using h
    · have hr' := tokenInv_routedSynthesis cfg s now tr ar fr t
        (dv.getD "en-US-JennyNeural") h
      rcases hr : routedSynthesis cfg s now tr ar fr t
        (dv.getD "en-US-JennyNeural") with ⟨r, s'⟩
      rw [hr] at hr'
      rcases r <;> simpa [hr] using hr'

theorem tokenInv_get_available_voices (cfg : Config) (s : TTSState)
    (now : Nat) (tr : HttpResponse) (cat : CatalogResponse)
    (h : tokenInv s) :
    tokenInv (get_available_voices cfg s now tr cat).2.1 := by
  unfold get_available_voices
  by_cases hfb : useFallback cfg
  · simpa [hfb] using h
  · have htok := tokenInv_get_azure_token cfg s now tr h
    rcases hres : (get_azure_token cfg s now tr).result with e | t
    · simpa [hfb, hres] using htok
    · by_cases hs : cat.status_code = 200 <;> simpa [hfb, hres, hs] using htok

/-- C10: in every reachable state of the shared `TextToSpeechAPI` object,
the cached token is `none` exactly when the cached expiry is `none`; every
operation, failed token acquisition included, preserves this. -/
theorem token_state_invariant (s : TTSState) (h : Reachable s) :
    s.azure_token = none ↔ s.token_expiry = none := by
  induction h with
  | init => simp
  | token cfg s now resp _ ih =>
    exact tokenInv_get_azure_token cfg s now resp ih
  | synth cfg s now tr sr text voice _ ih =>
    rw [synthesize_state_eq]
    exact tokenInv_get_azure_token cfg s now tr ih
  | getSpeech cfg s now tr ar fr qt _ ih =>
    exact tokenInv_text_to_speech cfg s now tr ar fr qt ih
  | postSpeech cfg s now tr ar fr d _ ih =>
    exact tokenInv_text_to_speech_post cfg s now tr ar fr d ih
  | voices cfg s now tr cat _ ih =>
    exact tokenInv_get_available_voices cfg s now tr cat ih

/-- Witness for C10: the invariant at the initial state, and at the state
left by a failed issuance from a reachable cached state. -/
theorem token_state_invariant_witness :
    ((⟨none, none⟩ : TTSState).azure_token = none ↔
      (⟨none, none⟩ : TTSState).token_expiry = none) ∧
    (((get_azure_token ⟨some "k", "eastus", false⟩ ⟨none, none⟩ 0
        ⟨503, "x"⟩).state).azure_token = none ↔
      ((get_azure_token ⟨some "k", "eastus", false⟩ ⟨none, none⟩ 0
        ⟨503, "x"⟩).state).token_expiry = none) :=
  ⟨token_state_invariant ⟨none, none⟩ Reachable.init,
   token_state_invariant _
     (Reachable.token ⟨some "k", "eastus", false⟩ ⟨none, none⟩ 0 ⟨503, "x"⟩
       Reachable.init)⟩
